import Mathlib

/-!
# Verification of the audio-capture / beat-detection pipeline

Shallow embedding of the core pipeline of the music-visualizer repository
(`src/main.rs`): the shared sample buffer fed by the capture callback, the
per-tick spectrum extraction block, and the `BeatDetector` state machine
(`detect` / `get_bpm`).

Modelling conventions:
* `f32` values (magnitudes, energies, sensitivity, BPM) are modelled as `ℚ`.
* `Instant` is modelled as a natural number of nanoseconds since some origin;
  `Duration::as_millis` is truncating division by `1000000`, exactly as in
  Rust. The `Instant::now()` observed inside `detect` becomes an explicit
  `now` argument.
* A spectrum (what `FrequencySpectrum::to_map()` yields) is a list of
  (frequency in Hz : ℕ, magnitude : ℚ) pairs, matching the `BTreeMap<u32, f32>`
  iteration the source performs.
* The external FFT crate (windowing and transform) is not part of this
  repository; the per-tick extraction block is embedded with the window
  function and the fallible transform as explicit functional parameters.
-/

/-- One spectrum as iterated by the source: (frequency in Hz, magnitude). -/
abbrev Spectrum := List (ℕ × ℚ)

/-- State of `BeatDetector` (src/main.rs lines 228–235).
`last_beat` is an instant in nanoseconds; `intervals` stores `Duration`
values in nanoseconds. -/
structure BeatDetector where
  energy_history : List ℚ
  history_size : ℕ
  sensitivity : ℚ
  last_beat : ℕ
  intervals : List ℕ
  total_beats : ℕ
deriving Repr, DecidableEq

/-- `BeatDetector::new` (src/main.rs lines 238–247); `now` is the
construction-time `Instant::now()`. -/
def BeatDetector.new (history_size : ℕ) (sensitivity : ℚ) (now : ℕ) : BeatDetector :=
  { energy_history := []
    history_size := history_size
    sensitivity := sensitivity
    last_beat := now
    intervals := []
    total_beats := 0 }

/-- The low-band accumulation loop at the top of `BeatDetector::detect`
(src/main.rs lines 250–259): fold over the spectrum map, summing magnitudes
of bins with `20.0 <= f <= 150.0` into `low_energy` and counting them. -/
def lowBandAcc (sp : Spectrum) : ℚ × ℕ :=
  sp.foldl
    (fun acc b =>
      if 20 ≤ b.1 ∧ b.1 ≤ 150 then (acc.1 + b.2, acc.2 + 1) else acc)
    (0, 0)

/-- `BeatDetector::detect` (src/main.rs lines 249–297). Returns the updated
state and the raw beat flag. `now` is the `Instant::now()` the source reads
when the raw flag is true (reading it on other paths changes nothing
observable). -/
def BeatDetector.detect (st : BeatDetector) (sp : Spectrum) (now : ℕ) :
    BeatDetector × Bool :=
  let acc := lowBandAcc sp
  if acc.2 = 0 then (st, false)
  else
    let avg_low_energy : ℚ := acc.1 / (acc.2 : ℚ)
    if st.energy_history.isEmpty then
      ({ st with energy_history := [avg_low_energy] }, false)
    else
      let history_avg : ℚ := st.energy_history.sum / (st.energy_history.length : ℚ)
      let h1 := st.energy_history ++ [avg_low_energy]
      let h2 := if st.history_size < h1.length then h1.tail else h1
      let is_beat : Bool :=
        decide (st.sensitivity * history_avg < avg_low_energy) &&
        decide ((1 : ℚ)/100 < avg_low_energy)
      let st1 := { st with energy_history := h2 }
      if is_beat then
        let duration := now - st.last_beat
        if 300 < duration / 1000000 then
          let i1 := st1.intervals ++ [duration]
          let i2 := if 10 < i1.length then i1.tail else i1
          ({ st1 with
              intervals := i2
              last_beat := now
              total_beats := st1.total_beats + 1 }, true)
        else (st1, true)
      else (st1, false)

/-- Mean of the stored intervals in (truncated) milliseconds, as computed
inside `get_bpm`: `sum(d.as_millis()) as f32 / len as f32`. -/
def BeatDetector.meanIntervalMs (st : BeatDetector) : ℚ :=
  (((st.intervals.map (fun d => d / 1000000)).sum : ℕ) : ℚ) / (st.intervals.length : ℚ)

/-- `BeatDetector::get_bpm` (src/main.rs lines 299–310). -/
def BeatDetector.get_bpm (st : BeatDetector) : ℚ :=
  if st.intervals.isEmpty then 0
  else if st.meanIntervalMs = 0 then 0
  else 60000 / st.meanIntervalMs

/-- The capture callback body (src/main.rs lines 343–350): extend the shared
buffer with the incoming chunk, then drain the front so at most 4096 samples
remain. -/
def appendChunk (s data : List ℚ) : List ℚ :=
  let s1 := s ++ data
  if 4096 < s1.length then s1.drop (s1.length - 4096) else s1

/-- The stream error callback (src/main.rs line 351):
`|err| eprintln!("Stream error: {}", err)`. It writes the message to stderr
and returns; the shared sample buffer — the only state the audio thread
shares with the main loop — is untouched, and no failure flag exists in the
program. -/
def streamErrorCallback (_err : String) (samples : List ℚ) : List ℚ :=
  samples

/-- The per-tick spectrum extraction block (src/main.rs lines 392–408).
`hannW` stands for the external crate function `hann_window` and `fft` for
`samples_fft_to_spectrum` with its `Result` sent through `.ok()`; the block
passes the frequency limit `(20, 20000)` to the transform. If the buffer
holds fewer than 2048 samples the tick yields `none`; otherwise the last
2048 samples are windowed and transformed. -/
def spectrumTick (hannW : List ℚ → List ℚ)
    (fft : List ℚ → ℚ × ℚ → Option Spectrum) (s : List ℚ) : Option Spectrum :=
  if 2048 ≤ s.length then fft (hannW (s.drop (s.length - 2048))) (20, 20000)
  else none

/-- Running the detector over a tick sequence, as the main loop does once
per tick: each tick is a spectrum paired with its `Instant::now()` reading;
returns the final state and the sequence of raw beat flags. -/
def runDetect (st : BeatDetector) : List (Spectrum × ℕ) → BeatDetector × List Bool
  | [] => (st, [])
  | t :: rest =>
      let r := st.detect t.1 t.2
      let rr := runDetect r.1 rest
      (rr.1, r.2 :: rr.2)

/-- The current low-band reading `avg_low_energy` of a tick. -/
def lowReading (sp : Spectrum) : ℚ := (lowBandAcc sp).1 / ((lowBandAcc sp).2 : ℚ)

/-- Mean of a list of readings, as in the spec text. -/
def historyMean (h : List ℚ) : ℚ := h.sum / (h.length : ℚ)

/-- Population variance of a list of readings, as in the spec text. -/
def historyVariance (h : List ℚ) : ℚ :=
  (h.map (fun x => (x - historyMean h)^2)).sum / (h.length : ℚ)

/-- Spec-side raw-flag predicate, following the spec wording (§4.3 steps
3–6): dynamic threshold `sensitivity × mean + 0.5 × sqrt(variance)` over the
existing history, and the flag holds exactly when the reading exceeds that
threshold and exceeds `0.01`. Stated over `ℝ` because of the square root;
compared against the source-side `BeatDetector.detect`. -/
def specRawFlag (hist : List ℚ) (sens reading : ℚ) : Prop :=
  ((sens * historyMean hist : ℚ) : ℝ)
      + (1/2 : ℝ) * Real.sqrt ((historyVariance hist : ℚ) : ℝ) < ((reading : ℚ) : ℝ)
    ∧ (1 : ℚ)/100 < reading

/-- Spec-side weighted low-band reading, following the spec wording (§4.3
step 1): average magnitude over bins in [20, 150] Hz, with bins at or below
60 Hz weighted by 1.5; compared against the source-side low-band average. -/
def specWeightedLowBand (sp : Spectrum) : ℚ :=
  let inBand := sp.filter (fun b => decide (20 ≤ b.1) && decide (b.1 ≤ 150))
  (inBand.map (fun b => if b.1 ≤ 60 then (3/2 : ℚ) * b.2 else b.2)).sum
    / (inBand.length : ℚ)

/-- Spec-side BPM, following the spec wording (§4.3 tempo estimate): 0 with
fewer than 3 intervals, else `60000 / median` of the sorted interval
durations in milliseconds, the median of an even count being the average of
the two middle values; compared against the source-side `get_bpm`. -/
def specBpmMedian (st : BeatDetector) : ℚ :=
  let ms : List ℚ := st.intervals.map (fun d => ((d / 1000000 : ℕ) : ℚ))
  if ms.length < 3 then 0
  else
    let s := List.insertionSort (· ≤ ·) ms
    let n := s.length
    let median : ℚ :=
      if n % 2 = 0 then (s.getD (n/2 - 1) 0 + s.getD (n/2) 0) / 2
      else s.getD (n/2) 0
    60000 / median

/-- The suffix of a list keeping at most its last 4096 elements; the shape
the shared buffer is kept in by the capture callback. -/
def suffix4096 (l : List ℚ) : List ℚ := l.drop (l.length - 4096)

/-- The energy-history update performed by one `detect` tick, as a pure
function of the fields it actually depends on. -/
def ehStep (eh : List ℚ) (hs : ℕ) (sp : Spectrum) : List ℚ :=
  if (lowBandAcc sp).2 = 0 then eh
  else if eh.isEmpty then [lowReading sp]
  else
    let h1 := eh ++ [lowReading sp]
    if hs < h1.length then h1.tail else h1

/-- The raw beat flag produced by one `detect` tick, as a pure function of
the fields it actually depends on. -/
def flagStep (eh : List ℚ) (sens : ℚ) (sp : Spectrum) : Bool :=
  if (lowBandAcc sp).2 = 0 then false
  else if eh.isEmpty then false
  else decide (sens * (eh.sum / (eh.length : ℚ)) < lowReading sp) &&
    decide ((1 : ℚ)/100 < lowReading sp)

section Helpers

theorem suffix_eq_drop {l s : List ℚ} (h : s <:+ l) :
    s = l.drop (l.length - s.length) := by
  obtain ⟨p, hp⟩ := h
  subst hp
  have h1 : (p ++ s).length - s.length = p.length := by
    rw [List.length_append]; omega
  rw [h1, List.drop_left]

theorem suffix4096_suffix (l : List ℚ) : suffix4096 l <:+ l :=
  List.drop_suffix _ _

theorem suffix4096_length (l : List ℚ) :
    (suffix4096 l).length = min l.length 4096 := by
  simp only [suffix4096, List.length_drop]; omega

theorem suffix4096_absorb (t d : List ℚ) :
    suffix4096 (suffix4096 t ++ d) = suffix4096 (t ++ d) := by
  have h1 : suffix4096 t ++ d <:+ t ++ d := by
    refine ⟨t.take (t.length - 4096), ?_⟩
    rw [← List.append_assoc]
    simp only [suffix4096]
    rw [List.take_append_drop]
  have h2 : suffix4096 (suffix4096 t ++ d) <:+ t ++ d :=
    (suffix4096_suffix _).trans h1
  have h3 : (suffix4096 (suffix4096 t ++ d)).length = (suffix4096 (t ++ d)).length := by
    rw [suffix4096_length, suffix4096_length, List.length_append, List.length_append,
      suffix4096_length]
    omega
  rw [suffix_eq_drop h2, suffix_eq_drop (suffix4096_suffix (t ++ d)), h3]

theorem appendChunk_eq (s d : List ℚ) : appendChunk s d = suffix4096 (s ++ d) := by
  simp only [appendChunk, suffix4096]
  split
  · rfl
  · rename_i h
    have h0 : (s ++ d).length - 4096 = 0 := by omega
    rw [h0, List.drop_zero]

theorem foldl_append_init (cs : List (List ℚ)) :
    ∀ a : List ℚ, cs.foldl (fun x y => x ++ y) a = a ++ cs.foldl (fun x y => x ++ y) [] := by
  induction cs with
  | nil => simp
  | cons c cs ih =>
    intro a
    simp only [List.foldl_cons]
    rw [ih (a ++ c), ih ([] ++ c)]
    simp [List.append_assoc]

theorem foldl_appendChunk (chunks : List (List ℚ)) :
    ∀ t : List ℚ, chunks.foldl appendChunk (suffix4096 t)
      = suffix4096 (t ++ chunks.foldl (fun a c => a ++ c) []) := by
  induction chunks with
  | nil => intro t; simp [suffix4096]
  | cons c cs ih =>
    intro t
    simp only [List.foldl_cons]
    rw [appendChunk_eq, suffix4096_absorb, ih (t ++ c)]
    rw [foldl_append_init cs ([] ++ c)]
    simp [List.append_assoc]

theorem detect_proj (st : BeatDetector) (sp : Spectrum) (now : ℕ) :
    (st.detect sp now).1.energy_history = ehStep st.energy_history st.history_size sp
    ∧ (st.detect sp now).1.history_size = st.history_size
    ∧ (st.detect sp now).1.sensitivity = st.sensitivity
    ∧ (st.detect sp now).2 = flagStep st.energy_history st.sensitivity sp := by
  unfold BeatDetector.detect ehStep flagStep lowReading
  dsimp only
  repeat' split
  all_goals simp_all

theorem gap_of_div (d : ℕ) (h : 300 < d / 1000000) : 300000000 < d := by
  have h301 : 301 * 1000000 ≤ d := (Nat.le_div_iff_mul_le (by norm_num)).mp h
  omega

theorem detect_total_mono (st : BeatDetector) (sp : Spectrum) (now : ℕ) :
    st.total_beats ≤ (st.detect sp now).1.total_beats := by
  unfold BeatDetector.detect
  dsimp only
  repeat' split
  all_goals simp

theorem detect_accept_gap (st : BeatDetector) (sp : Spectrum) (now : ℕ)
    (h : st.total_beats < (st.detect sp now).1.total_beats) :
    300000000 < now - st.last_beat := by
  unfold BeatDetector.detect at h
  dsimp only at h
  repeat' split at h
  all_goals simp_all
  all_goals exact gap_of_div _ (by assumption)

theorem detect_suppressed (st : BeatDetector) (sp : Spectrum) (now : ℕ)
    (hgap : now - st.last_beat ≤ 300000000) :
    (st.detect sp now).1.intervals = st.intervals ∧
    (st.detect sp now).1.last_beat = st.last_beat ∧
    (st.detect sp now).1.total_beats = st.total_beats := by
  have hdiv : (now - st.last_beat) / 1000000 ≤ 300 := by
    calc (now - st.last_beat) / 1000000 ≤ 300000000 / 1000000 :=
          Nat.div_le_div_right hgap
    _ = 300 := by norm_num
  unfold BeatDetector.detect
  dsimp only
  repeat' split
  all_goals simp_all
  all_goals exact absurd (by assumption) (Nat.not_lt.mpr hdiv)

theorem detect_last_beat_cases (st : BeatDetector) (sp : Spectrum) (now : ℕ) :
    ((st.detect sp now).1.last_beat = st.last_beat
      ∧ (st.detect sp now).1.total_beats = st.total_beats)
    ∨ ((st.detect sp now).1.last_beat = now
      ∧ (st.detect sp now).1.total_beats = st.total_beats + 1
      ∧ 300000000 < now - st.last_beat) := by
  unfold BeatDetector.detect
  dsimp only
  repeat' split
  all_goals simp_all
  all_goals exact gap_of_div _ (by assumption)

theorem runDetect_total_mono (ticks : List (Spectrum × ℕ)) :
    ∀ st : BeatDetector, st.total_beats ≤ (runDetect st ticks).1.total_beats := by
  induction ticks with
  | nil => intro st; exact le_refl _
  | cons t rest ih =>
    intro st
    exact le_trans (detect_total_mono st t.1 t.2) (ih (st.detect t.1 t.2).1)

theorem runDetect_flags_indep (sps : List Spectrum) :
    ∀ (ts1 ts2 : List ℕ) (st1 st2 : BeatDetector),
    st1.energy_history = st2.energy_history → st1.history_size = st2.history_size →
    st1.sensitivity = st2.sensitivity → ts1.length = sps.length → ts2.length = sps.length →
    (runDetect st1 (sps.zip ts1)).2 = (runDetect st2 (sps.zip ts2)).2 := by
  induction sps with
  | nil => intro ts1 ts2 st1 st2 _ _ _ _ _; simp [runDetect]
  | cons sp rest ih =>
    intro ts1 ts2 st1 st2 heh hhs hsens hl1 hl2
    cases ts1 with
    | nil => simp at hl1
    | cons n1 ts1' =>
      cases ts2 with
      | nil => simp at hl2
      | cons n2 ts2' =>
        simp only [List.zip_cons_cons, runDetect]
        have p1 := detect_proj st1 sp n1
        have p2 := detect_proj st2 sp n2
        have hflag : (st1.detect sp n1).2 = (st2.detect sp n2).2 := by
          rw [p1.2.2.2, p2.2.2.2, heh, hsens]
        rw [hflag]
        congr 1
        apply ih ts1' ts2'
        · rw [p1.1, p2.1, heh, hhs]
        · rw [p1.2.1, p2.2.1, hhs]
        · rw [p1.2.2.1, p2.2.2.1, hsens]
        · simpa using hl1
        · simpa using hl2

theorem lowBandAcc_eq (sp : Spectrum) :
    lowBandAcc sp =
      (((sp.filter (fun b => decide (20 ≤ b.1) && decide (b.1 ≤ 150))).map Prod.snd).sum,
        (sp.filter (fun b => decide (20 ≤ b.1) && decide (b.1 ≤ 150))).length) := by
  have aux : ∀ (l : Spectrum) (a : ℚ) (c : ℕ),
      l.foldl (fun acc b => if 20 ≤ b.1 ∧ b.1 ≤ 150 then (acc.1 + b.2, acc.2 + 1) else acc) (a, c)
        = (a + ((l.filter (fun b => decide (20 ≤ b.1) && decide (b.1 ≤ 150))).map Prod.snd).sum,
            c + (l.filter (fun b => decide (20 ≤ b.1) && decide (b.1 ≤ 150))).length) := by
    intro l
    induction l with
    | nil => intro a c; simp
    | cons b rest ih =>
      intro a c
      simp only [List.foldl_cons, List.filter_cons]
      by_cases hb : 20 ≤ b.1 ∧ b.1 ≤ 150
      · rw [if_pos hb, ih]
        have hd : (decide (20 ≤ b.1) && decide (b.1 ≤ 150)) = true := by
          simp [hb.1, hb.2]
        rw [hd]
        simp [add_assoc, add_comm, add_left_comm]
      · rw [if_neg hb, ih]
        have hd : (decide (20 ≤ b.1) && decide (b.1 ≤ 150)) = false := by
          rcases Decidable.not_and_iff_or_not.mp hb with h | h <;> simp [h]
        rw [hd]
        simp
  unfold lowBandAcc
  rw [aux]
  simp

end Helpers

/-- C1 counterexample: `get_bpm` does not implement the claimed tempo rule.
With a single stored interval of 500 ms (fewer than 3), the reported BPM is
120, not 0; and with the three intervals 100 ms, 200 ms, 600 ms the source
reports `60000 / mean = 200` BPM while the spec-side median formula gives
300 BPM. -/
theorem c1_bpm_counterexample :
    (BeatDetector.get_bpm ⟨[], 43, 3/2, 0, [500000000], 1⟩ ≠ 0
      ∧ (([500000000] : List ℕ)).length < 3)
    ∧ BeatDetector.get_bpm ⟨[], 43, 3/2, 0, [100000000, 200000000, 600000000], 3⟩
        ≠ specBpmMedian ⟨[], 43, 3/2, 0, [100000000, 200000000, 600000000], 3⟩ := by
  refine ⟨⟨?_, by norm_num⟩, ?_⟩
  · have h : BeatDetector.get_bpm ⟨[], 43, 3/2, 0, [500000000], 1⟩ = 120 := by
      norm_num [BeatDetector.get_bpm, BeatDetector.meanIntervalMs]
    rw [h]; norm_num
  · have h1 : BeatDetector.get_bpm ⟨[], 43, 3/2, 0, [100000000, 200000000, 600000000], 3⟩ = 200 := by
      norm_num [BeatDetector.get_bpm, BeatDetector.meanIntervalMs]
    have h2 : specBpmMedian ⟨[], 43, 3/2, 0, [100000000, 200000000, 600000000], 3⟩ = 300 := by
      norm_num [specBpmMedian, List.insertionSort, List.orderedInsert]
    rw [h1, h2]; norm_num

/-- C1 (amended): `get_bpm` reports 0 exactly when the interval history is
empty (or the truncated-millisecond mean is 0), and otherwise reports
`60000 / mean(interval_ms)` — the mean of the stored interval durations in
truncated milliseconds, not the median, with no minimum count of 3. -/
theorem c1_bpm_mean (st : BeatDetector) :
    (st.intervals = [] → st.get_bpm = 0)
    ∧ (st.intervals ≠ [] → st.meanIntervalMs ≠ 0 →
        st.get_bpm = 60000 / st.meanIntervalMs) := by
  constructor
  · intro h
    simp [BeatDetector.get_bpm, h]
  · intro h1 h2
    have he : st.intervals.isEmpty = false := by
      simpa [List.isEmpty_iff] using h1
    simp [BeatDetector.get_bpm, he, h2]

/-- Witness for C1 (amended) at a detector holding one 500 ms interval. -/
theorem c1_bpm_mean_witness :
    (([500000000] : List ℕ) ≠ [] ∧ BeatDetector.meanIntervalMs ⟨[], 43, 3/2, 0, [500000000], 1⟩ ≠ 0)
    ∧ BeatDetector.get_bpm ⟨[], 43, 3/2, 0, [500000000], 1⟩
        = 60000 / BeatDetector.meanIntervalMs ⟨[], 43, 3/2, 0, [500000000], 1⟩ :=
  ⟨⟨by simp, by norm_num [BeatDetector.meanIntervalMs]⟩,
    (c1_bpm_mean _).2 (by simp) (by norm_num [BeatDetector.meanIntervalMs])⟩

/-- C10: `get_bpm` is total and never divides by zero: it returns 0 when
the interval history is empty and when the mean interval duration in
milliseconds is 0, and only when that mean is nonzero does it divide 60000
by it (so `bpm * mean = 60000` there). -/
theorem c10_get_bpm_total (st : BeatDetector) :
    (st.intervals = [] → st.get_bpm = 0)
    ∧ (st.meanIntervalMs = 0 → st.get_bpm = 0)
    ∧ (st.intervals ≠ [] → st.meanIntervalMs ≠ 0 →
        st.get_bpm * st.meanIntervalMs = 60000) := by
  refine ⟨?_, ?_, ?_⟩
  · intro h
    simp [BeatDetector.get_bpm, h]
  · intro h
    simp [BeatDetector.get_bpm, h]
  · intro h1 h2
    have he : st.intervals.isEmpty = false := by
      simpa [List.isEmpty_iff] using h1
    simp only [BeatDetector.get_bpm, he, Bool.false_eq_true, if_false, if_neg h2]
    exact div_mul_cancel₀ _ h2

/-- Witness for C10 at a detector holding one 600 ms interval. -/
theorem c10_get_bpm_total_witness :
    (([600000000] : List ℕ) ≠ [] ∧ BeatDetector.meanIntervalMs ⟨[], 43, 3/2, 0, [600000000], 1⟩ ≠ 0)
    ∧ BeatDetector.get_bpm ⟨[], 43, 3/2, 0, [600000000], 1⟩
        * BeatDetector.meanIntervalMs ⟨[], 43, 3/2, 0, [600000000], 1⟩ = 60000 :=
  ⟨⟨by simp, by norm_num [BeatDetector.meanIntervalMs]⟩,
    (c10_get_bpm_total _).2.2 (by simp) (by norm_num [BeatDetector.meanIntervalMs])⟩

/-- C2 counterexample: with existing history `[0, 2]` (mean 1, variance 1)
and sensitivity 1.5, the reading 1.6 makes the source raw flag true, yet
1.6 does not exceed the spec threshold
`sensitivity × mean + 0.5 × sqrt(variance) = 2`: the code has no variance
term in its threshold. -/
theorem c2_threshold_counterexample :
    (BeatDetector.detect ⟨[0, 2], 43, 3/2, 0, [], 0⟩ [(100, 8/5)] 0).2 = true
    ∧ lowReading [(100, 8/5)] = 8/5
    ∧ ¬ specRawFlag [0, 2] (3/2) (8/5) := by
  refine ⟨by norm_num [BeatDetector.detect, lowBandAcc],
    by norm_num [lowReading, lowBandAcc], ?_⟩
  rintro ⟨h1, -⟩
  have hm : historyMean [0, 2] = 1 := by norm_num [historyMean]
  have hv : historyVariance [0, 2] = 1 := by norm_num [historyVariance, historyMean]
  rw [hm, hv] at h1
  push_cast at h1
  rw [Real.sqrt_one] at h1
  norm_num at h1

/-- C2 (amended): on every tick with a non-empty energy history and at
least one in-band bin, the raw beat flag is true exactly when the current
reading exceeds `sensitivity × mean` of the existing history (current
reading excluded) and exceeds 0.01; there is no variance term in the
threshold. -/
theorem c2_flag_no_variance (st : BeatDetector) (sp : Spectrum) (now : ℕ)
    (hne : st.energy_history ≠ []) (hc : (lowBandAcc sp).2 ≠ 0) :
    ((st.detect sp now).2 = true ↔
      st.sensitivity * historyMean st.energy_history < lowReading sp
        ∧ (1 : ℚ)/100 < lowReading sp) := by
  rw [(detect_proj st sp now).2.2.2]
  have he : st.energy_history.isEmpty = false := by
    simpa [List.isEmpty_iff] using hne
  simp [flagStep, hc, he, historyMean]

/-- Witness for C2 (amended) at history `[0, 2]`, sensitivity 1.5 and a
one-bin spectrum with reading 1.6. -/
theorem c2_flag_no_variance_witness :
    (([0, 2] : List ℚ) ≠ [] ∧ (lowBandAcc [(100, 8/5)]).2 ≠ 0)
    ∧ ((BeatDetector.detect ⟨[0, 2], 43, 3/2, 0, [], 0⟩ [(100, 8/5)] 0).2 = true ↔
        (3/2 : ℚ) * historyMean [0, 2] < lowReading [(100, 8/5)]
          ∧ (1 : ℚ)/100 < lowReading [(100, 8/5)]) :=
  ⟨⟨by simp, by norm_num [lowBandAcc]⟩,
    c2_flag_no_variance ⟨[0, 2], 43, 3/2, 0, [], 0⟩ [(100, 8/5)] 0
      (by simp) (by norm_num [lowBandAcc])⟩

/-- C3 counterexample: for the spectrum with bins (50 Hz, 1) and
(100 Hz, 0), the source low-band reading (also the value seeded into the
energy history) is the plain average 1/2, while the spec-side weighted
average (1.5 weight at or below 60 Hz) is 3/4. -/
theorem c3_weighting_counterexample :
    lowReading [(50, 1), (100, 0)] = 1/2
    ∧ (BeatDetector.detect ⟨[], 43, 3/2, 0, [], 0⟩ [(50, 1), (100, 0)] 0).1.energy_history = [1/2]
    ∧ specWeightedLowBand [(50, 1), (100, 0)] = 3/4
    ∧ (1/2 : ℚ) ≠ 3/4 := by
  refine ⟨by norm_num [lowReading, lowBandAcc],
    by norm_num [BeatDetector.detect, lowBandAcc],
    by norm_num [specWeightedLowBand], by norm_num⟩

/-- C3 (amended): the low-band energy reading is the unweighted average
magnitude over the spectrum bins whose frequency lies in [20, 150] Hz; no
bin receives a 1.5 weighting. -/
theorem c3_low_band_unweighted (sp : Spectrum) :
    lowReading sp =
      ((sp.filter (fun b => decide (20 ≤ b.1) && decide (b.1 ≤ 150))).map Prod.snd).sum
        / ((sp.filter (fun b => decide (20 ≤ b.1) && decide (b.1 ≤ 150))).length : ℚ) := by
  unfold lowReading
  rw [lowBandAcc_eq]

/-- C4: debounce of accepted beats. A tick that increments `total_beats`
requires more than 300000000 ns (300 ms) since `last_beat`; a tick whose
elapsed time is at most 300 ms leaves `intervals`, `last_beat` and
`total_beats` unchanged even when it returns a true raw flag; every tick
either leaves (`last_beat`, `total_beats`) unchanged or records an accepted
beat at `now` with a gap above 300 ms; and in the concrete two-tick
scenario 100 ms apart both ticks report a true flag while `total_beats`
ends at exactly 1. -/
theorem c4_debounce :
    (∀ (st : BeatDetector) (sp : Spectrum) (now : ℕ),
      st.total_beats < (st.detect sp now).1.total_beats → 300000000 < now - st.last_beat)
    ∧ (∀ (st : BeatDetector) (sp : Spectrum) (now : ℕ),
      (st.detect sp now).2 = true → now - st.last_beat ≤ 300000000 →
        (st.detect sp now).1.intervals = st.intervals
        ∧ (st.detect sp now).1.last_beat = st.last_beat
        ∧ (st.detect sp now).1.total_beats = st.total_beats)
    ∧ (∀ (st : BeatDetector) (sp : Spectrum) (now : ℕ),
      ((st.detect sp now).1.last_beat = st.last_beat
        ∧ (st.detect sp now).1.total_beats = st.total_beats)
      ∨ ((st.detect sp now).1.last_beat = now
        ∧ (st.detect sp now).1.total_beats = st.total_beats + 1
        ∧ 300000000 < now - st.last_beat))
    ∧ ((BeatDetector.detect ⟨[2/100, 2/100], 43, 3/2, 0, [], 0⟩ [(100, 2/10)] 400000000).2 = true
      ∧ ((BeatDetector.detect ⟨[2/100, 2/100], 43, 3/2, 0, [], 0⟩ [(100, 2/10)] 400000000).1.detect
          [(100, 2/10)] 500000000).2 = true
      ∧ ((BeatDetector.detect ⟨[2/100, 2/100], 43, 3/2, 0, [], 0⟩ [(100, 2/10)] 400000000).1.detect
          [(100, 2/10)] 500000000).1.total_beats = 1
      ∧ (BeatDetector.detect ⟨[2/100, 2/100], 43, 3/2, 0, [], 0⟩ [(100, 2/10)] 400000000).1.total_beats = 1) := by
  refine ⟨detect_accept_gap, fun st sp now _ hgap => detect_suppressed st sp now hgap,
    detect_last_beat_cases, ?_, ?_, ?_, ?_⟩
  · norm_num [BeatDetector.detect, lowBandAcc]
  · norm_num [BeatDetector.detect, lowBandAcc]
  · norm_num [BeatDetector.detect, lowBandAcc]
  · norm_num [BeatDetector.detect, lowBandAcc]

/-- Witness for C4 at a concrete accepted beat 400 ms after `last_beat`. -/
theorem c4_debounce_witness :
    ((⟨[2/100, 2/100], 43, 3/2, 0, [], 0⟩ : BeatDetector).total_beats
        < ((⟨[2/100, 2/100], 43, 3/2, 0, [], 0⟩ : BeatDetector).detect [(100, 2/10)] 400000000).1.total_beats)
    ∧ 300000000 < 400000000 - (⟨[2/100, 2/100], 43, 3/2, 0, [], 0⟩ : BeatDetector).last_beat :=
  ⟨by norm_num [BeatDetector.detect, lowBandAcc],
    c4_debounce.1 ⟨[2/100, 2/100], 43, 3/2, 0, [], 0⟩ [(100, 2/10)] 400000000
      (by norm_num [BeatDetector.detect, lowBandAcc])⟩

/-- C5: after any sequence of append-and-trim callback operations starting
from the empty buffer, the buffer equals the suffix of the concatenated
input stream of length `min(total_appended, 4096)`; in particular a single
5000-sample burst leaves exactly input samples [904, 5000), length 4096. -/
theorem c5_buffer (chunks : List (List ℚ)) :
    chunks.foldl appendChunk []
      = (chunks.foldl (fun a c => a ++ c) []).drop
          ((chunks.foldl (fun a c => a ++ c) []).length - 4096)
    ∧ (chunks.foldl appendChunk []).length
        = min (chunks.foldl (fun a c => a ++ c) []).length 4096
    ∧ (∀ l : List ℚ, l.length = 5000 →
        appendChunk [] l = l.drop 904 ∧ (appendChunk [] l).length = 4096) := by
  have h := foldl_appendChunk chunks []
  rw [show suffix4096 [] = [] from rfl, List.nil_append] at h
  refine ⟨h, ?_, ?_⟩
  · rw [h]
    exact suffix4096_length _
  · intro l hl
    have he : appendChunk [] l = suffix4096 l := by
      rw [appendChunk_eq, List.nil_append]
    constructor
    · rw [he]
      simp only [suffix4096, hl]
    · rw [he, suffix4096_length, hl]
      omega

/-- Witness for C5 at a concrete 5000-sample burst. -/
theorem c5_buffer_witness :
    (List.replicate 5000 (0:ℚ)).length = 5000
    ∧ appendChunk [] (List.replicate 5000 (0:ℚ)) = (List.replicate 5000 (0:ℚ)).drop 904 :=
  ⟨by rw [List.length_replicate],
    ((c5_buffer []).2.2 (List.replicate 5000 0) (by rw [List.length_replicate])).1⟩

/-- C6 counterexample: the stream error callback returns the shared buffer
unchanged — after a mid-stream failure the 2048 buffered samples are still
present (nothing is discarded, and there is no failure flag to set), and
the next tick still computes a spectrum from those retained samples instead
of reacquiring. -/
theorem c6_no_failure_flag_counterexample :
    streamErrorCallback "Stream error" (List.replicate 2048 (0:ℚ)) = List.replicate 2048 (0:ℚ)
    ∧ List.replicate 2048 (0:ℚ) ≠ []
    ∧ spectrumTick (fun w => w) (fun w _ => some [(20, w.sum)])
        (streamErrorCallback "Stream error" (List.replicate 2048 (0:ℚ))) ≠ none := by
  have hlen : (List.replicate 2048 (0:ℚ)).length = 2048 := by
    rw [List.length_replicate]
  refine ⟨rfl, ?_, ?_⟩
  · intro hcon
    rw [hcon] at hlen
    simp at hlen
  · unfold streamErrorCallback spectrumTick
    rw [hlen, if_pos (le_refl 2048)]
    exact Option.some_ne_none _

/-- C6 (amended): on a mid-stream hardware failure the error callback
logs to stderr and returns without panicking, leaving the shared sample
buffer — the only state shared with the main loop — unchanged; no failure
flag exists, and subsequent ticks neither reacquire the stream nor discard
buffered samples, extracting spectra from exactly the samples already
buffered. -/
theorem c6_error_callback_inert (err : String) (samples : List ℚ)
    (hannW : List ℚ → List ℚ) (fft : List ℚ → ℚ × ℚ → Option Spectrum) :
    streamErrorCallback err samples = samples
    ∧ spectrumTick hannW fft (streamErrorCallback err samples)
        = spectrumTick hannW fft samples :=
  ⟨rfl, rfl⟩

/-- C7 counterexample: two runs over the identical spectrum sequence and
identical configuration but different tick times produce the same `is_beat`
sequence yet different `total_beats` (1 versus 0) and different `bpm`
(150 versus 0): the detector depends on the wall-clock times of the
ticks. -/
theorem c7_time_dependence_counterexample :
    (runDetect (BeatDetector.new 43 (3/2) 0)
        [([(100, 2/100)], 0), ([(100, 2/10)], 400000000)]).2
      = (runDetect (BeatDetector.new 43 (3/2) 0)
        [([(100, 2/100)], 0), ([(100, 2/10)], 100000000)]).2
    ∧ (runDetect (BeatDetector.new 43 (3/2) 0)
        [([(100, 2/100)], 0), ([(100, 2/10)], 400000000)]).1.total_beats = 1
    ∧ (runDetect (BeatDetector.new 43 (3/2) 0)
        [([(100, 2/100)], 0), ([(100, 2/10)], 100000000)]).1.total_beats = 0
    ∧ (runDetect (BeatDetector.new 43 (3/2) 0)
        [([(100, 2/100)], 0), ([(100, 2/10)], 400000000)]).1.get_bpm = 150
    ∧ (runDetect (BeatDetector.new 43 (3/2) 0)
        [([(100, 2/100)], 0), ([(100, 2/10)], 100000000)]).1.get_bpm = 0 := by
  norm_num [runDetect, BeatDetector.new, BeatDetector.detect, lowBandAcc,
    BeatDetector.get_bpm, BeatDetector.meanIntervalMs]

/-- C7 (amended): the `is_beat` flag sequence is determined by the spectra
and the configuration alone, independent of tick times; the full outputs
(`total_beats`, `bpm`) are deterministic once the tick timestamps are also
fixed: equal initial states and equal timed tick sequences give equal
results. -/
theorem c7_determinism_given_times :
    (∀ (sps : List Spectrum) (ts1 ts2 : List ℕ) (st : BeatDetector),
      ts1.length = sps.length → ts2.length = sps.length →
      (runDetect st (sps.zip ts1)).2 = (runDetect st (sps.zip ts2)).2)
    ∧ (∀ (st1 st2 : BeatDetector) (ticks1 ticks2 : List (Spectrum × ℕ)),
      st1 = st2 → ticks1 = ticks2 → runDetect st1 ticks1 = runDetect st2 ticks2) := by
  constructor
  · intro sps ts1 ts2 st h1 h2
    exact runDetect_flags_indep sps ts1 ts2 st st rfl rfl rfl h1 h2
  · intro st1 st2 t1 t2 h ht
    rw [h, ht]

/-- Witness for C7 (amended): one spectrum run at time 0 and at time 999
yields the same flag sequence. -/
theorem c7_determinism_given_times_witness :
    (([0] : List ℕ).length = ([[(100, 2/100)]] : List Spectrum).length
      ∧ ([999] : List ℕ).length = ([[(100, 2/100)]] : List Spectrum).length)
    ∧ (runDetect (BeatDetector.new 43 (3/2) 0) (([[(100, 2/100)]] : List Spectrum).zip [0])).2
        = (runDetect (BeatDetector.new 43 (3/2) 0) (([[(100, 2/100)]] : List Spectrum).zip [999])).2 :=
  ⟨⟨rfl, rfl⟩, c7_determinism_given_times.1 [[(100, 2/100)]] [0] [999]
      (BeatDetector.new 43 (3/2) 0) rfl rfl⟩

/-- C8: per-tick spectrum extraction returns absence rather than an error
in both degenerate cases — fewer than 2048 buffered samples yields no
spectrum, and failure of the external transform yields no spectrum —
and otherwise it feeds exactly the most recent 2048 samples through the
window function into the transform restricted to [20 Hz, 20000 Hz]. -/
theorem c8_spectrum_extraction (hannW : List ℚ → List ℚ)
    (fft : List ℚ → ℚ × ℚ → Option Spectrum) (s : List ℚ) :
    (s.length < 2048 → spectrumTick hannW fft s = none)
    ∧ (2048 ≤ s.length →
        spectrumTick hannW fft s = fft (hannW (s.drop (s.length - 2048))) (20, 20000)
        ∧ (s.drop (s.length - 2048)).length = 2048
        ∧ s.take (s.length - 2048) ++ s.drop (s.length - 2048) = s)
    ∧ (2048 ≤ s.length → fft (hannW (s.drop (s.length - 2048))) (20, 20000) = none →
        spectrumTick hannW fft s = none) := by
  refine ⟨?_, ?_, ?_⟩
  · intro h
    unfold spectrumTick
    rw [if_neg (by omega)]
  · intro h
    refine ⟨by simp [spectrumTick, h], ?_, List.take_append_drop _ _⟩
    rw [List.length_drop]
    omega
  · intro h hf
    simp [spectrumTick, h, hf]

/-- Witness for C8 on an empty buffer and on a 2048-sample buffer. -/
theorem c8_spectrum_extraction_witness :
    (([] : List ℚ).length < 2048
      ∧ spectrumTick (fun w => w) (fun _ _ => none) [] = none)
    ∧ (2048 ≤ (List.replicate 2048 (0:ℚ)).length
      ∧ ((List.replicate 2048 (0:ℚ)).drop ((List.replicate 2048 (0:ℚ)).length - 2048)).length = 2048) :=
  ⟨⟨by simp, (c8_spectrum_extraction (fun w => w) (fun _ _ => none) []).1 (by simp)⟩,
    ⟨by rw [List.length_replicate], ((c8_spectrum_extraction (fun w => w) (fun _ _ => none)
      (List.replicate 2048 0)).2.1 (by rw [List.length_replicate])).2.1⟩⟩

/-- C9: `total_beats` is monotonically non-decreasing, both across a single
`detect` tick and across any tick sequence; `get_bpm` reads state without
mutating it. -/
theorem c9_total_beats_monotone :
    (∀ (st : BeatDetector) (sp : Spectrum) (now : ℕ),
      st.total_beats ≤ (st.detect sp now).1.total_beats)
    ∧ (∀ (st : BeatDetector) (ticks : List (Spectrum × ℕ)),
      st.total_beats ≤ (runDetect st ticks).1.total_beats) :=
  ⟨detect_total_mono, fun st ticks => runDetect_total_mono ticks st⟩
